import Mathlib

/-
Verification of the client-side target-acquisition protocol (the "Target
Broker") of the card-game frontend.

The definitions below are a shallow embedding of
`src/apps/frontend/src/lib/components/game/game.ts` (the `target` /
`searchingForTarget` stores, `search`, `waitForTarget`), of the call sites
`InGame.svelte` (`playCard` / `executePlayCard`), `Player.svelte`
(candidate submission via `target.set`), and
`dialog/cast-optional-ability.svelte` (the `yes` / `no` handlers).

Wire types (`FrontendTarget`, `CardRequiredTarget`, `GameState`, ...) come
from the generated `@gangsta/rusty` bindings, which are not part of the
repository; their shapes are reconstructed from every field access the
frontend performs on them.

JavaScript behaviour is modelled explicitly:
  - a svelte store keeps a list of subscribers; `set` stores the value and
    then runs every subscriber synchronously in subscription order; a throw
    inside a subscriber aborts the remaining notifications and propagates
    to the caller of `set`; `subscribe` immediately invokes the new
    subscriber with the current value and is never undone by `search`;
  - a promise settles at most once; later `resolve` / `reject` calls are
    no-ops;
  - `targetPlayer!.public_info` on an undefined `targetPlayer`, and
    `ccard.card` on an undefined `ccard`, throw a TypeError; both are
    modelled as the `fault` outcome.
-/

/-- Card reference produced by a click: owning player's seat index, the pile
name as a raw string (`"Hand"` / `"Play"` / `"Spell"`), and the position in
that pile. Mirrors `FrontendCardTarget`. -/
structure FrontendCardTarget where
  player_index : Nat
  pile : String
  card_index : Nat
deriving DecidableEq

/-- Candidate target submitted through the `target` store: a player seat or a
card reference. Mirrors `FrontendTarget`. -/
inductive FrontendTarget where
  | Player (player_index : Nat)
  | Card (card : FrontendCardTarget)
deriving DecidableEq

/-- Targeting requirement declared by an ability. Mirrors
`CardRequiredTarget`: the string variants and the two tagged tuple variants
`CardOfType [CardType, CardTargetTeam]` / `CreatureOfType [CreatureType,
CardTargetTeam]` (types and teams are wire strings). -/
inductive CardRequiredTarget where
  | None
  | EnemyCardOrPlayer
  | EnemyCardInCombat
  | Spell
  | CardOfType (card_type : String) (team : String)
  | CreatureOfType (creature_type : String) (team : String)
deriving DecidableEq

/-- Fields of `AbilityDetails` the frontend reads: identity, targeting
requirement and activation kind (`action_type`, `"Instant"` or not). -/
structure AbilityDetails where
  id : Nat
  required_target : CardRequiredTarget
  action_type : String
deriving DecidableEq

/-- Fields of a card the matching logic reads. -/
structure CardData where
  card_type : String
  creature_type : String
deriving DecidableEq

/-- Card plus detail payload: the card data and its ability list
(`card.abilities[0]` is what `playCard` passes to `waitForTarget`). -/
structure CardWithDetails where
  card : CardData
  abilities : List AbilityDetails
deriving DecidableEq

/-- Publicly visible zones of a player (`public_info.spells`,
`public_info.cards_in_play`); hands are not exposed here. -/
structure PublicPlayerInfo where
  spells : List CardWithDetails
  cards_in_play : List CardWithDetails
deriving DecidableEq

/-- Player state: stable seat index, own hand (only populated for the
viewing player) and public zones. -/
structure PlayerState where
  player_index : Nat
  hand : List CardWithDetails
  public_info : PublicPlayerInfo
deriving DecidableEq

/-- Reference to an attacking card inside the combat set
(`x.attacker.pile/card_index/player_index`). -/
structure AttackerRef where
  pile : String
  card_index : Nat
  player_index : Nat
deriving DecidableEq

/-- One entry of `game.public_info.attacks`. -/
structure Attack where
  attacker : AttackerRef
deriving DecidableEq

/-- Shared public info consulted by the matching logic. -/
structure PublicGameInfo where
  attacks : List Attack
deriving DecidableEq

/-- Game snapshot. `players` is the list of player states in
`Object.values(game.players)` order. -/
structure GameState where
  players : List PlayerState
  public_info : PublicGameInfo
deriving DecidableEq

/-- Rendering of a requirement by `JSON.stringify`, used in the rejection
message of `search`. -/
def jsonOfRequiredTarget : CardRequiredTarget → String
  | .None => "\"None\""
  | .EnemyCardOrPlayer => "\"EnemyCardOrPlayer\""
  | .EnemyCardInCombat => "\"EnemyCardInCombat\""
  | .Spell => "\"Spell\""
  | .CardOfType t team => "\x7b\"CardOfType\":[\"" ++ t ++ "\",\"" ++ team ++ "\"]\x7d"
  | .CreatureOfType t team => "\x7b\"CreatureOfType\":[\"" ++ t ++ "\",\"" ++ team ++ "\"]\x7d"

/-- Rejection message built at game.ts:126:
`'hi looking for' + JSON.stringify(ability.required_target)`. -/
def rejectMsg (r : CardRequiredTarget) : String :=
  "hi looking for" ++ jsonOfRequiredTarget r

/-- Result of one run of the subscriber callback installed by `search`:
it resolves the promise, rejects it, throws a TypeError (`fault`), or
returns without settling (`pass`, e.g. on a `null` store value). -/
inductive CallbackOutcome where
  | resolve (t : FrontendTarget)
  | reject (msg : String)
  | fault
  | pass
deriving DecidableEq

/-- Bool test for the reject outcome. -/
def isRejected : CallbackOutcome → Bool
  | .reject _ => true
  | _ => false

/-- Lines 52-65 of game.ts: find the player by `player_index`, then compute
the `pile` local. `targetPlayer!.public_info` throws when the player lookup
missed (modelled by `Except.error`); the `Hand` branch and unknown pile
names leave `pile` undefined (`Option.none`). -/
def lookupPile (game : GameState) (c : FrontendCardTarget) :
    Except Unit (Option (List CardWithDetails)) :=
  let targetPlayer? := game.players.find? (fun p => p.player_index == c.player_index)
  if c.pile = "Spell" then
    match targetPlayer? with
    | some p => .ok (some p.public_info.spells)
    | none => .error ()
  else if c.pile = "Hand" then
    .ok none
  else if c.pile = "Play" then
    match targetPlayer? with
    | some p => .ok (some p.public_info.cards_in_play)
    | none => .error ()
  else
    .ok none

/-- Lines 79-85 of game.ts: does some combat entry's attacker match the
candidate's (pile, card_index, player_index) triple. -/
def attackFind (game : GameState) (c : FrontendCardTarget) : Bool :=
  game.public_info.attacks.any fun x =>
    decide (x.attacker.pile = c.pile ∧ x.attacker.card_index = c.card_index ∧
      x.attacker.player_index = c.player_index)

/-- Lines 91-117 and the fall-through rejection at lines 125-127 of game.ts:
the `if (pile)` block. `pile[card_index]` is undefined when the index is out
of range, and the subsequent `ccard.card` access under a type requirement
throws (`fault`). Requirements other than the two type checks fall through
to the rejection. -/
def inPileChecks (ability : AbilityDetails) (pile? : Option (List CardWithDetails))
    (c : FrontendCardTarget) : CallbackOutcome :=
  match pile? with
  | some pile =>
    match ability.required_target with
    | .CreatureOfType t _ =>
      match pile[c.card_index]? with
      | some ccard =>
        if t = ccard.card.creature_type then .resolve (.Card c)
        else .reject (rejectMsg ability.required_target)
      | none => .fault
    | .CardOfType t _ =>
      match pile[c.card_index]? with
      | some ccard =>
        if t = ccard.card.card_type then .resolve (.Card c)
        else .reject (rejectMsg ability.required_target)
      | none => .fault
    | _ => .reject (rejectMsg ability.required_target)
  | none => .reject (rejectMsg ability.required_target)

/-- Lines 50-128 of game.ts: one run of the subscriber callback of `search`,
for a store value `frontendTarget`, validated against the `ability` and the
snapshot `game` captured when `search` was called. -/
def searchCallback (ability : AbilityDetails) (game : GameState)
    (frontendTarget : Option FrontendTarget) : CallbackOutcome :=
  match frontendTarget with
  | some (FrontendTarget.Card c) =>
    match lookupPile game c with
    | .error _ => .fault
    | .ok pile? =>
      if ability.required_target = .Spell ∧ c.pile = "Spell" then
        .resolve (.Card c)
      else if ability.required_target = .EnemyCardInCombat ∧ attackFind game c = true then
        .resolve (.Card c)
      else
        inPileChecks ability pile? c
  | some (FrontendTarget.Player i) =>
    if ability.required_target = .EnemyCardOrPlayer then .resolve (.Player i)
    else .reject (rejectMsg ability.required_target)
  | none => .pass

/-- Settlement state of the promise created by one `search` call. -/
inductive PromiseStatus where
  | pending
  | resolvedWith (t : FrontendTarget)
  | rejectedWith (msg : String)
deriving DecidableEq

/-- Single-settlement promise semantics: only a pending promise is changed
by a resolve or reject; everything else is a no-op. -/
def settle (st : PromiseStatus) (o : CallbackOutcome) : PromiseStatus :=
  match st, o with
  | .pending, .resolve t => .resolvedWith t
  | .pending, .reject m => .rejectedWith m
  | s, _ => s

/-- One live subscriber of the `target` store: the closure captures the
ability and the snapshot passed to `search`, and settles its own promise.
`search` never unsubscribes, so these accumulate. -/
structure Subscription where
  ability : AbilityDetails
  game : GameState
  status : PromiseStatus
deriving DecidableEq

/-- State of the module-level stores of game.ts: the subscriber list of the
`target` store, its current value, and the `searchingForTarget` flag. -/
structure BrokerState where
  subs : List Subscription
  targetVal : Option FrontendTarget
  searchingForTarget : Bool
deriving DecidableEq

/-- Initial store state: no subscribers, no value, not searching. -/
def initBroker : BrokerState := ⟨[], none, false⟩

/-- Synchronous notification of the subscriber list, in subscription order.
A `fault` in one callback leaves that subscription's promise untouched,
skips the remaining subscribers and reports the escaped exception in the
returned flag. -/
def notifySubs (v : Option FrontendTarget) : List Subscription → List Subscription × Bool
  | [] => ([], false)
  | s :: rest =>
    match searchCallback s.ability s.game v with
    | .fault => (s :: rest, true)
    | o =>
      let s' : Subscription := ⟨s.ability, s.game, settle s.status o⟩
      let (rest', f) := notifySubs v rest
      (s' :: rest', f)

/-- Svelte `target.set(v)`: store the value, then notify subscribers.
The flag reports a TypeError escaping to the caller of `set`. -/
def targetSet (st : BrokerState) (v : Option FrontendTarget) : BrokerState × Bool :=
  let (subs', f) := notifySubs v st.subs
  ({ st with targetVal := v, subs := subs' }, f)

/-- Svelte `target.subscribe(cb)` inside `search` (game.ts:50): register the
callback with a fresh pending promise; the subscriber is immediately invoked
once with the current store value. -/
def subscribeSearch (ability : AbilityDetails) (game : GameState) (st : BrokerState) :
    BrokerState × Bool :=
  match searchCallback ability game st.targetVal with
  | .fault => ({ st with subs := st.subs ++ [⟨ability, game, .pending⟩] }, true)
  | o => ({ st with subs := st.subs ++ [⟨ability, game, settle .pending o⟩] }, false)

/-- Lines 46-130 of game.ts, `search(ability, game)` up to its suspension:
`target.set(null)` then subscribe the validation callback. -/
def search (ability : AbilityDetails) (game : GameState) (st : BrokerState) :
    BrokerState × Bool :=
  let (st1, f1) := targetSet st none
  let (st2, f2) := subscribeSearch ability game st1
  (st2, f1 || f2)

/-- Synchronous result of calling `waitForTarget`: either it returned a
value without suspending, or it created a pending request and suspended. -/
inductive WaitStart where
  | immediate (t : Option FrontendTarget)
  | suspended
deriving DecidableEq

/-- Lines 132-149 of game.ts, `waitForTarget(ability, game, forPlay)` up to
its suspension point: the `!ability || required_target === 'None'` and
`action_type !== 'Instant' && forPlay` short-circuits return `null` without
touching the stores; otherwise `target.set(null)`,
`searchingForTarget.set(true)` and `search` run and the caller suspends. -/
def waitForTarget (ability? : Option AbilityDetails) (game : GameState) (forPlay : Bool)
    (st : BrokerState) : BrokerState × WaitStart :=
  match ability? with
  | none => (st, .immediate none)
  | some ability =>
    if ability.required_target = CardRequiredTarget.None then
      (st, .immediate none)
    else if ability.action_type ≠ "Instant" ∧ forPlay then
      (st, .immediate none)
    else
      let (st1, _) := targetSet st none
      let st2 := { st1 with searchingForTarget := true }
      let (st3, _) := search ability game st2
      (st3, .suspended)

/-- Lines 150-153 of game.ts: after the awaited `search` promise resolves,
`searchingForTarget.set(false)` and `target.set(null)` run. -/
def waitForTargetResume (st : BrokerState) : BrokerState :=
  let st1 := { st with searchingForTarget := false }
  (targetSet st1 none).1

/-- Client world: the broker stores plus the latest pushed game snapshot
(`lobby.game_state`, replaced wholesale on every subscription push). -/
structure World where
  broker : BrokerState
  latestGame : GameState
deriving DecidableEq

/-- World before any request, with an initial snapshot. -/
def initWorld (g : GameState) : World := ⟨initBroker, g⟩

/-- Caller-side `waitForTarget(ability, game_state, forPlay)`: the snapshot
argument is the latest snapshot at the moment of the call, and `search`
closes over exactly that value. -/
def requestTargetW (w : World) (ability : AbilityDetails) (forPlay : Bool) : World :=
  { w with broker := (waitForTarget (some ability) w.latestGame forPlay w.broker).1 }

/-- Server push: the snapshot reference is replaced wholesale; nothing else
changes. Subscriptions keep the snapshot they closed over. -/
def pushUpdateW (w : World) (g : GameState) : World :=
  { w with latestGame := g }

/-- Click-side candidate submission (`Player.svelte`): `target.set(candidate)`
while a solicitation is open. The flag reports an escaped TypeError. -/
def submitCandidateW (w : World) (c : FrontendTarget) : World × Bool :=
  let (b, f) := targetSet w.broker (some c)
  ({ w with broker := b }, f)

/-- Argument payload of the `lobby.play_card` mutation as built by
`executePlayCard` in InGame.svelte. -/
structure PlayCardMutation where
  code : String
  in_hand_index : Nat
  target : Option FrontendTarget
deriving DecidableEq

/-- Synchronous progress of `playCard(index)` in InGame.svelte: the mutation
was sent with a target value, or the caller suspended awaiting a target, or
the hand lookup itself faulted. -/
inductive PlayCardStep where
  | sent (m : PlayCardMutation) (st : BrokerState)
  | awaitingTarget (st : BrokerState)
  | fault
deriving DecidableEq

/-- InGame.svelte `playCard(index)` up to its first suspension:
`card = self.hand[index]`, then
`target = await waitForTarget(card.abilities[0], game_state, true)`;
when `waitForTarget` returns synchronously the mutation is sent with the
returned target. -/
def playCard (code : String) (hand : List CardWithDetails) (index : Nat)
    (game : GameState) (st : BrokerState) : PlayCardStep :=
  match hand[index]? with
  | none => .fault
  | some card =>
    match waitForTarget card.abilities[0]? game true st with
    | (st', .immediate t) => .sent ⟨code, index, t⟩ st'
    | (st', .suspended) => .awaitingTarget st'

/-- Continuation of `playCard` after the target phase: a resolved target is
packaged into the mutation; a rejection propagates out of the `await` and
`executePlayCard` is never reached (no mutation). -/
def playCardAfterTarget (code : String) (index : Nat)
    (result : Except String (Option FrontendTarget)) : Option PlayCardMutation :=
  match result with
  | .ok t => some ⟨code, index, t⟩
  | .error _ => none

/-- Fields of `ExecuteAbility` used by the ability dialogs. -/
structure ExecuteAbility where
  details : AbilityDetails
deriving DecidableEq

/-- Argument payload of the `lobby.respond_optional_ability` mutation. -/
structure RespondOptionalAbilityMutation where
  code : String
  target : Option FrontendTarget
  ability_id : Nat
  response : Bool
deriving DecidableEq

/-- The `no` handler of cast-optional-ability.svelte: with no stored ability
it returns without sending anything; otherwise it sends
`lobby.respond_optional_ability` with `target: null` and `response: true`,
never consulting the target broker. -/
def declineOptionalAbility (code : String) (ability? : Option ExecuteAbility) :
    Option RespondOptionalAbilityMutation :=
  match ability? with
  | none => none
  | some ability => some ⟨code, none, ability.details.id, true⟩

/-- The mutation the `yes` handler of cast-optional-ability.svelte sends
once its `waitForTarget` call has produced `target`. -/
def acceptOptionalAbilityMutation (code : String) (ability : ExecuteAbility)
    (target : Option FrontendTarget) : RespondOptionalAbilityMutation :=
  ⟨code, target, ability.details.id, true⟩

/-- Zone lookup as the implementation can actually read it: the player found
by seat index, then the public `Spell` / `Play` zone; the hand and unknown
pile names are unreadable. Companion of `implAccepts`. -/
def readablePile (g : GameState) (c : FrontendCardTarget) :
    Option (List CardWithDetails) :=
  match g.players.find? (fun p => p.player_index == c.player_index) with
  | none => none
  | some p =>
    if c.pile = "Spell" then some p.public_info.spells
    else if c.pile = "Play" then some p.public_info.cards_in_play
    else none

/-- Matching table as implemented (the table of spec §4.1 amended by the
facts that the hand zone is never readable and that team components are
ignored): the acceptance relation requirement × candidate → Bool, evaluated
against a snapshot. -/
def implAccepts (g : GameState) : CardRequiredTarget → FrontendTarget → Bool
  | .EnemyCardOrPlayer, .Player _ => true
  | .EnemyCardInCombat, .Card cc => attackFind g cc
  | .Spell, .Card cc => decide (cc.pile = "Spell")
  | .CardOfType t _, .Card cc =>
    match (readablePile g cc).bind (fun pile => pile[cc.card_index]?) with
    | some ccard => decide (t = ccard.card.card_type)
    | none => false
  | .CreatureOfType t _, .Card cc =>
    match (readablePile g cc).bind (fun pile => pile[cc.card_index]?) with
    | some ccard => decide (t = ccard.card.creature_type)
    | none => false
  | _, _ => false

/-- Card resolution following the words of spec §4.1: look up the player at
`playerIndex`, then the zone named by `pile` (hand/play/spell), then the
entry at `cardIndex`; any miss yields `none`. -/
def specResolveCard (g : GameState) (cc : FrontendCardTarget) :
    Option CardWithDetails :=
  match g.players.find? (fun p => p.player_index == cc.player_index) with
  | none => none
  | some p =>
    let zone? : Option (List CardWithDetails) :=
      if cc.pile = "Hand" then some p.hand
      else if cc.pile = "Play" then some p.public_info.cards_in_play
      else if cc.pile = "Spell" then some p.public_info.spells
      else none
    zone?.bind fun zone => zone[cc.card_index]?

/-- Matching table of spec §4.1 following its words (with the legacy rule
for `EnemyCardOrPlayer`: cards rejected): lookup misses are non-matches, and
the hand is one of the resolvable zones. -/
def specAccepts (g : GameState) : CardRequiredTarget → FrontendTarget → Bool
  | .EnemyCardOrPlayer, .Player _ => true
  | .EnemyCardInCombat, .Card cc => attackFind g cc
  | .Spell, .Card cc => decide (cc.pile = "Spell")
  | .CardOfType t _, .Card cc =>
    match specResolveCard g cc with
    | some ccard => decide (t = ccard.card.card_type)
    | none => false
  | .CreatureOfType t _, .Card cc =>
    match specResolveCard g cc with
    | some ccard => decide (t = ccard.card.creature_type)
    | none => false
  | _, _ => false

/-- Concrete seat-0 player with empty zones. -/
def seat0 : PlayerState := ⟨0, [], ⟨[], []⟩⟩

/-- Snapshot with one player (seat 0) and no combat. -/
def snapNoAttacks : GameState := ⟨[seat0], ⟨[]⟩⟩

/-- Snapshot whose combat set flags (Spell, 0, 0) as an attacker. -/
def snapSpellAttack : GameState := ⟨[seat0], ⟨[⟨⟨"Spell", 0, 0⟩⟩]⟩⟩

/-- Snapshot whose combat set flags (Play, 0, 0) as an attacker. -/
def snapPlayAttack : GameState := ⟨[seat0], ⟨[⟨⟨"Play", 0, 0⟩⟩]⟩⟩

/-- Concrete creature card. -/
def creatureCard : CardWithDetails := ⟨⟨"Creature", "Goblin"⟩, []⟩

/-- Snapshot where seat 0 holds a creature card in hand. -/
def snapHandCreature : GameState := ⟨[⟨0, [creatureCard], ⟨[], []⟩⟩], ⟨[]⟩⟩

/-- Snapshot with no players at all. -/
def snapEmpty : GameState := ⟨[], ⟨[]⟩⟩

/-- Ability requiring no target. -/
def abilityNone : AbilityDetails := ⟨0, .None, "Instant"⟩

/-- Instant ability requiring a spell target. -/
def abilitySpell : AbilityDetails := ⟨1, .Spell, "Instant"⟩

/-- Instant ability requiring an attacking enemy card. -/
def abilityCombat : AbilityDetails := ⟨2, .EnemyCardInCombat, "Instant"⟩

/-- Instant ability requiring a card of type Creature. -/
def abilityCardType : AbilityDetails := ⟨3, .CardOfType "Creature" "Any", "Instant"⟩

/-- Instant ability requiring an enemy card or player. -/
def abilityEnemy : AbilityDetails := ⟨4, .EnemyCardOrPlayer, "Instant"⟩

/-- Non-Instant (Tap) ability that would otherwise require a target. -/
def abilityTap : AbilityDetails := ⟨5, .Spell, "Tap"⟩

/-- Hand card whose first ability is the non-Instant `abilityTap`. -/
def cardTap : CardWithDetails := ⟨⟨"Creature", "Goblin"⟩, [abilityTap]⟩

/-- Candidate: seat 0's spell pile, slot 0. -/
def spellCand : FrontendTarget := .Card ⟨0, "Spell", 0⟩

/-- Candidate: seat 0's play pile, slot 0. -/
def playCand : FrontendTarget := .Card ⟨0, "Play", 0⟩

/-- Snapshot where seat 0 has a creature card in play. -/
def snapPlayCreature : GameState := ⟨[⟨0, [], ⟨[], [creatureCard]⟩⟩], ⟨[]⟩⟩

lemma searchCallback_none (a : AbilityDetails) (g : GameState) :
    searchCallback a g none = .pass := rfl

lemma settle_pass (s : PromiseStatus) : settle s .pass = s := by
  cases s <;> rfl

lemma notifySubs_none (l : List Subscription) : notifySubs none l = (l, false) := by
  induction l with
  | nil => rfl
  | cons s rest ih => cases s; simp [notifySubs, searchCallback_none, settle_pass, ih]

lemma targetSet_none (st : BrokerState) :
    targetSet st none = ({ st with targetVal := none }, false) := by
  simp [targetSet, notifySubs_none]

lemma waitForTarget_suspend (a : AbilityDetails) (g : GameState) (st : BrokerState)
    (hR : a.required_target ≠ CardRequiredTarget.None) :
    waitForTarget (some a) g false st =
      ({ st with
          subs := st.subs ++ [⟨a, g, .pending⟩]
          targetVal := none
          searchingForTarget := true }, .suspended) := by
  simp [waitForTarget, hR, search, subscribeSearch, targetSet_none, searchCallback_none,
    settle_pass]

lemma waitForTarget_suspend_init (a : AbilityDetails) (g : GameState)
    (hR : a.required_target ≠ CardRequiredTarget.None) :
    waitForTarget (some a) g false initBroker =
      (⟨[⟨a, g, .pending⟩], none, true⟩, .suspended) := by
  rw [waitForTarget_suspend a g initBroker hR]
  rfl

lemma waitForTarget_suspend_cons (a : AbilityDetails) (g : GameState) (s : Subscription)
    (hR : a.required_target ≠ CardRequiredTarget.None) :
    waitForTarget (some a) g false ⟨[s], none, true⟩ =
      (⟨[s, ⟨a, g, .pending⟩], none, true⟩, .suspended) := by
  rw [waitForTarget_suspend a g ⟨[s], none, true⟩ hR]
  rfl

/-- C4: `requestTarget` (`waitForTarget`) with requirement `None` returns
`null` immediately and synchronously: the broker state — in particular the
observable `searchingForTarget` flag — is untouched and no request is
created. -/
theorem requestTarget_none_immediate (a : AbilityDetails) (g : GameState)
    (forPlay : Bool) (st : BrokerState) (h : a.required_target = CardRequiredTarget.None) :
    waitForTarget (some a) g forPlay st = (st, .immediate none) := by
  simp [waitForTarget, h]

/-- Witness for C4 at a concrete ability and state. -/
theorem requestTarget_none_immediate_witness :
    abilityNone.required_target = CardRequiredTarget.None ∧
    waitForTarget (some abilityNone) snapEmpty true initBroker =
      (initBroker, .immediate none) :=
  ⟨rfl, requestTarget_none_immediate abilityNone snapEmpty true initBroker rfl⟩

/-- C5: an ability invoked from a hand-play context (`forPlay = true`) whose
activation kind is not `"Instant"` causes no target solicitation:
`waitForTarget` returns `null` without suspending or touching the broker
state, and `playCard` sends the play mutation with `null` in its target
field. -/
theorem playCard_nonInstant_null_target (code : String) (hand : List CardWithDetails)
    (index : Nat) (g : GameState) (st : BrokerState) (card : CardWithDetails)
    (a : AbilityDetails) (hcard : hand[index]? = some card)
    (hab : card.abilities[0]? = some a) (hk : a.action_type ≠ "Instant") :
    waitForTarget (some a) g true st = (st, .immediate none) ∧
    playCard code hand index g st = .sent ⟨code, index, none⟩ st := by
  have h1 : waitForTarget (some a) g true st = (st, .immediate none) := by
    by_cases hN : a.required_target = CardRequiredTarget.None
    · simp [waitForTarget, hN]
    · simp [waitForTarget, hN, hk]
  refine ⟨h1, ?_⟩
  simp [playCard, hcard, hab, h1]

/-- Witness for C5: playing the non-Instant `cardTap` from hand sends the
mutation with a null target and leaves the broker untouched. -/
theorem playCard_nonInstant_null_target_witness :
    ([cardTap][0]? = some cardTap) ∧ (cardTap.abilities[0]? = some abilityTap) ∧
    abilityTap.action_type ≠ "Instant" ∧
    (waitForTarget (some abilityTap) snapEmpty true initBroker =
        (initBroker, .immediate none) ∧
      playCard "lobby" [cardTap] 0 snapEmpty initBroker =
        .sent ⟨"lobby", 0, none⟩ initBroker) :=
  ⟨rfl, rfl, by decide,
    playCard_nonInstant_null_target "lobby" [cardTap] 0 snapEmpty initBroker cardTap
      abilityTap rfl rfl (by decide)⟩

/-- C7: a `Card` candidate whose `player_index` resolves to no player in the
snapshot is not treated as a non-match — the validation callback faults (the
`targetPlayer!.public_info` TypeError), instead of rejecting as the spec's
StaleReference rule demands. Evaluation of the code at the failing input. -/
theorem staleCandidate_faults :
    searchCallback abilitySpell snapNoAttacks (some (.Card ⟨5, "Spell", 0⟩)) = .fault ∧
    isRejected (searchCallback abilitySpell snapNoAttacks (some (.Card ⟨5, "Spell", 0⟩))) =
      false :=
  ⟨rfl, rfl⟩

/-- C10: declining an optional-ability prompt with an ability stored sends
`lobby.respond_optional_ability` with `target` null and `response` true —
the same response value the accept path sends — and with no ability stored
it sends nothing; the decline path never consults the target broker. -/
theorem declineOptional_sends_true_response (code : String) (ab : ExecuteAbility)
    (t : Option FrontendTarget) :
    declineOptionalAbility code (some ab) = some ⟨code, none, ab.details.id, true⟩ ∧
    (acceptOptionalAbilityMutation code ab t).response = true ∧
    declineOptionalAbility code none = none :=
  ⟨rfl, rfl, rfl⟩

/-- C1 counterexample: a request opened while the snapshot had no attackers,
then a push makes the candidate an attacker, then the candidate is
submitted. The pending future is REJECTED — validation used the snapshot
captured at request time — although validation against the latest snapshot
current at submission time (`snapPlayAttack`) accepts the same candidate. -/
theorem staleSnapshot_counterexample :
    ((submitCandidateW (pushUpdateW (requestTargetW (initWorld snapNoAttacks)
          abilityCombat false) snapPlayAttack) playCand).1.broker.subs.map
        Subscription.status =
      [PromiseStatus.rejectedWith (rejectMsg .EnemyCardInCombat)]) ∧
    (pushUpdateW (requestTargetW (initWorld snapNoAttacks) abilityCombat false)
        snapPlayAttack).latestGame = snapPlayAttack ∧
    searchCallback abilityCombat snapPlayAttack (some playCand) = .resolve playCand := by
  decide

/-- C1 amended: the Broker validates a submitted candidate against the
snapshot captured when the request was created (the `game` argument closed
over by `search`), not against the latest snapshot at submission time: the
settled status depends only on the request-time snapshot `g0`, with the
pushed snapshot `g1` absent from the result. -/
theorem validation_uses_request_time_snapshot (a : AbilityDetails) (g0 g1 : GameState)
    (c : FrontendTarget) (hR : a.required_target ≠ CardRequiredTarget.None) :
    ((submitCandidateW (pushUpdateW (requestTargetW (initWorld g0) a false) g1) c).1).broker.subs =
      [⟨a, g0, settle .pending (searchCallback a g0 (some c))⟩] := by
  cases hs : searchCallback a g0 (some c) <;>
    simp [submitCandidateW, pushUpdateW, requestTargetW, initWorld,
      waitForTarget_suspend_init a g0 hR, targetSet, notifySubs, hs, settle]

/-- Witness for the amended C1 at concrete snapshots and candidate. -/
theorem validation_uses_request_time_snapshot_witness :
    abilityCombat.required_target ≠ CardRequiredTarget.None ∧
    ((submitCandidateW (pushUpdateW (requestTargetW (initWorld snapNoAttacks)
          abilityCombat false) snapSpellAttack) spellCand).1).broker.subs =
      [⟨abilityCombat, snapNoAttacks,
        settle .pending (searchCallback abilityCombat snapNoAttacks (some spellCand))⟩] :=
  ⟨by decide, validation_uses_request_time_snapshot abilityCombat snapNoAttacks
    snapSpellAttack spellCand (by decide)⟩

/-- C2 counterexample: a first request (spell target) is superseded by a
second (combat target); the candidate then submitted is a valid candidate
for the second request (second future resolves with it), yet the FIRST
request's future also resolves with that same candidate — cross-talk. -/
theorem superseded_request_crosstalk_counterexample :
    ((submitCandidateW (requestTargetW (pushUpdateW (requestTargetW
          (initWorld snapNoAttacks) abilitySpell false) snapSpellAttack)
        abilityCombat false) spellCand).1.broker.subs.map Subscription.status) =
      [PromiseStatus.resolvedWith spellCand, PromiseStatus.resolvedWith spellCand] := by
  decide

/-- C2 amended: `search` never unsubscribes, so a superseded request's
future still runs its validation on every later submission: after a second
`requestTarget` supersedes the first, a submitted candidate settles BOTH
futures, each against its own captured requirement and snapshot — the first
future can resolve with (or be rejected by) a candidate submitted for the
second request. -/
theorem superseded_request_still_settles (a1 a2 : AbilityDetails) (g1 g2 : GameState)
    (c : FrontendTarget) (hR1 : a1.required_target ≠ CardRequiredTarget.None)
    (hR2 : a2.required_target ≠ CardRequiredTarget.None)
    (hnf : searchCallback a1 g1 (some c) ≠ .fault) :
    ((submitCandidateW (requestTargetW (pushUpdateW (requestTargetW (initWorld g1) a1 false)
          g2) a2 false) c).1).broker.subs =
      [⟨a1, g1, settle .pending (searchCallback a1 g1 (some c))⟩,
        ⟨a2, g2, settle .pending (searchCallback a2 g2 (some c))⟩] := by
  cases hs1 : searchCallback a1 g1 (some c) <;>
    first
      | exact absurd hs1 hnf
      | cases hs2 : searchCallback a2 g2 (some c) <;>
          simp [submitCandidateW, pushUpdateW, requestTargetW, initWorld,
            waitForTarget_suspend_init a1 g1 hR1,
            waitForTarget_suspend_cons a2 g2 ⟨a1, g1, .pending⟩ hR2,
            targetSet, notifySubs, hs1, hs2, settle]

/-- Witness for the amended C2 at concrete requests and candidate. -/
theorem superseded_request_still_settles_witness :
    abilitySpell.required_target ≠ CardRequiredTarget.None ∧
    abilityCombat.required_target ≠ CardRequiredTarget.None ∧
    searchCallback abilitySpell snapNoAttacks (some spellCand) ≠ .fault ∧
    ((submitCandidateW (requestTargetW (pushUpdateW (requestTargetW
          (initWorld snapNoAttacks) abilitySpell false) snapSpellAttack)
        abilityCombat false) spellCand).1).broker.subs =
      [⟨abilitySpell, snapNoAttacks,
          settle .pending (searchCallback abilitySpell snapNoAttacks (some spellCand))⟩,
        ⟨abilityCombat, snapSpellAttack,
          settle .pending (searchCallback abilityCombat snapSpellAttack (some spellCand))⟩] :=
  ⟨by decide, by decide, by decide,
    superseded_request_still_settles abilitySpell abilityCombat snapNoAttacks
      snapSpellAttack spellCand (by decide) (by decide) (by decide)⟩

/-- C9: after a valid candidate has resolved the only outstanding request
and `waitForTarget` has cleared it (flag down, store value nulled),
submitting the same candidate again is a no-op: the settled promise is
unchanged (no new resolution), nothing is rejected, and no error escapes —
the NoPendingRequest silent-ignore behaviour. -/
theorem resubmit_after_resolution_noop (a : AbilityDetails) (g : GameState)
    (c : FrontendTarget) (hR : a.required_target ≠ CardRequiredTarget.None)
    (hvalid : searchCallback a g (some c) = .resolve c) :
    waitForTargetResume ((submitCandidateW (requestTargetW (initWorld g) a false) c).1.broker) =
      ⟨[⟨a, g, .resolvedWith c⟩], none, false⟩ ∧
    targetSet ⟨[⟨a, g, .resolvedWith c⟩], none, false⟩ (some c) =
      (⟨[⟨a, g, .resolvedWith c⟩], some c, false⟩, false) := by
  constructor
  · simp [requestTargetW, initWorld, submitCandidateW,
      waitForTarget_suspend_init a g hR, targetSet, notifySubs, hvalid, settle,
      waitForTargetResume, notifySubs_none]
  · simp [targetSet, notifySubs, hvalid, settle]

/-- Witness for C9 at a concrete resolved request and candidate. -/
theorem resubmit_after_resolution_noop_witness :
    abilitySpell.required_target ≠ CardRequiredTarget.None ∧
    searchCallback abilitySpell snapNoAttacks (some spellCand) = .resolve spellCand ∧
    (waitForTargetResume ((submitCandidateW (requestTargetW (initWorld snapNoAttacks)
          abilitySpell false) spellCand).1.broker) =
        ⟨[⟨abilitySpell, snapNoAttacks, .resolvedWith spellCand⟩], none, false⟩ ∧
      targetSet ⟨[⟨abilitySpell, snapNoAttacks, .resolvedWith spellCand⟩], none, false⟩
          (some spellCand) =
        (⟨[⟨abilitySpell, snapNoAttacks, .resolvedWith spellCand⟩], some spellCand, false⟩,
          false)) :=
  ⟨by decide, by decide,
    resubmit_after_resolution_noop abilitySpell snapNoAttacks spellCand (by decide)
      (by decide)⟩

lemma readablePile_of_lookupPile (g : GameState) (cc : FrontendCardTarget)
    (pile? : Option (List CardWithDetails)) (h : lookupPile g cc = .ok pile?) :
    readablePile g cc = pile? := by
  cases hf : g.players.find? (fun p => p.player_index == cc.player_index) <;>
    by_cases h1 : cc.pile = "Spell" <;>
    by_cases h2 : cc.pile = "Hand" <;>
    by_cases h3 : cc.pile = "Play" <;>
    simp_all [lookupPile, readablePile] <;>
    (split <;> rfl)

lemma attackFind_iff (g : GameState) (cc : FrontendCardTarget) :
    attackFind g cc = true ↔
      ∃ x ∈ g.public_info.attacks, x.attacker.pile = cc.pile ∧
        x.attacker.card_index = cc.card_index ∧
        x.attacker.player_index = cc.player_index := by
  simp [attackFind, List.any_eq_true]

lemma searchCallback_player_characterize (a : AbilityDetails) (g : GameState) (i : Nat) :
    searchCallback a g (some (.Player i)) =
      (if implAccepts g a.required_target (.Player i) then .resolve (.Player i)
       else .reject (rejectMsg a.required_target)) := by
  cases ha : a.required_target <;> simp [searchCallback, implAccepts, ha]

lemma searchCallback_card_characterize (a : AbilityDetails) (g : GameState)
    (cc : FrontendCardTarget) (hnf : searchCallback a g (some (.Card cc)) ≠ .fault) :
    searchCallback a g (some (.Card cc)) =
      (if implAccepts g a.required_target (.Card cc) then .resolve (.Card cc)
       else .reject (rejectMsg a.required_target)) := by
  unfold searchCallback at hnf ⊢
  cases hlp : lookupPile g cc with
  | error e => simp [hlp] at hnf
  | ok pile? =>
    have hrp := readablePile_of_lookupPile g cc pile? hlp
    simp only [hlp]
    simp only [hlp] at hnf
    cases ha : a.required_target with
    | None => cases pile? <;> simp [ha, implAccepts, inPileChecks]
    | EnemyCardOrPlayer => cases pile? <;> simp [ha, implAccepts, inPileChecks]
    | Spell =>
      by_cases hp : cc.pile = "Spell"
      · simp [ha, hp, implAccepts]
      · cases pile? <;> simp [ha, hp, implAccepts, inPileChecks]
    | EnemyCardInCombat =>
      cases hat : attackFind g cc with
      | true => simp [ha, hat, implAccepts]
      | false => cases pile? <;> simp [ha, hat, implAccepts, inPileChecks]
    | CardOfType t team =>
      cases pile? with
      | none => simp [ha, implAccepts, inPileChecks, hrp]
      | some l =>
        cases hget : l[cc.card_index]? with
        | none =>
          exfalso
          apply hnf
          simp [ha, inPileChecks, hget]
        | some ccard =>
          by_cases ht : t = ccard.card.card_type
          · simp [ha, inPileChecks, hget, ht, implAccepts, hrp]
          · simp [ha, inPileChecks, hget, ht, implAccepts, hrp]
    | CreatureOfType t team =>
      cases pile? with
      | none => simp [ha, implAccepts, inPileChecks, hrp]
      | some l =>
        cases hget : l[cc.card_index]? with
        | none =>
          exfalso
          apply hnf
          simp [ha, inPileChecks, hget]
        | some ccard =>
          by_cases ht : t = ccard.card.creature_type
          · simp [ha, inPileChecks, hget, ht, implAccepts, hrp]
          · simp [ha, inPileChecks, hget, ht, implAccepts, hrp]

/-- C3 counterexample: requirement `CardOfType Creature` pending, candidate
referencing a hand card that IS a creature. The §4.1 table (resolution over
hand/play/spell per the spec's words) accepts it, but the code cannot read
the hand pile and rejects the future instead of resolving it — the claimed
iff with the §4.1 table fails at this input. -/
theorem specTable_handCard_counterexample :
    specAccepts snapHandCreature abilityCardType.required_target (.Card ⟨0, "Hand", 0⟩) =
      true ∧
    searchCallback abilityCardType snapHandCreature (some (.Card ⟨0, "Hand", 0⟩)) =
      .reject (rejectMsg abilityCardType.required_target) := by
  decide

/-- C3 amended: while a requirement `R ≠ None` is pending, a submitted
candidate that does not fault resolves the future iff it satisfies the
matching table as implemented (`implAccepts`: §4.1 with the hand zone
unreadable and team components ignored); otherwise the future rejects with
the descriptive message and the enclosing play aborts without building the
mutation. -/
theorem submit_resolves_iff_matches (code : String) (index : Nat) (a : AbilityDetails)
    (g : GameState) (c : FrontendTarget)
    (hR : a.required_target ≠ CardRequiredTarget.None)
    (hnf : searchCallback a g (some c) ≠ .fault) :
    (searchCallback a g (some c) = .resolve c ↔ implAccepts g a.required_target c = true) ∧
    (implAccepts g a.required_target c = false →
      searchCallback a g (some c) = .reject (rejectMsg a.required_target) ∧
      playCardAfterTarget code index (.error (rejectMsg a.required_target)) = none) := by
  have hchar : searchCallback a g (some c) =
      (if implAccepts g a.required_target c then .resolve c
       else .reject (rejectMsg a.required_target)) := by
    cases c with
    | Player i => exact searchCallback_player_characterize a g i
    | Card cc => exact searchCallback_card_characterize a g cc hnf
  rw [hchar]
  cases him : implAccepts g a.required_target c <;>
    simp [him, playCardAfterTarget]

/-- Witness for the amended C3: a play-zone creature candidate under a
`CardOfType Creature` requirement. -/
theorem submit_resolves_iff_matches_witness :
    abilityCardType.required_target ≠ CardRequiredTarget.None ∧
    searchCallback abilityCardType snapPlayCreature (some playCand) ≠ .fault ∧
    ((searchCallback abilityCardType snapPlayCreature (some playCand) = .resolve playCand ↔
        implAccepts snapPlayCreature abilityCardType.required_target playCand = true) ∧
      (implAccepts snapPlayCreature abilityCardType.required_target playCand = false →
        searchCallback abilityCardType snapPlayCreature (some playCand) =
          .reject (rejectMsg abilityCardType.required_target) ∧
        playCardAfterTarget "lobby" 0 (.error (rejectMsg abilityCardType.required_target)) =
          none)) :=
  ⟨by decide, by decide,
    submit_resolves_iff_matches "lobby" 0 abilityCardType snapPlayCreature playCand
      (by decide) (by decide)⟩

/-- C6 counterexample: requirement `EnemyCardInCombat` pending against a
snapshot with an EMPTY attacker list; a Card candidate whose player index
resolves to no player faults (TypeError) instead of rejecting with
InvalidTarget, so not every Card candidate rejects. -/
theorem emptyCombat_staleCard_not_rejected :
    snapEmpty.public_info.attacks = [] ∧
    isRejected (searchCallback abilityCombat snapEmpty (some (.Card ⟨7, "Spell", 0⟩))) =
      false ∧
    searchCallback abilityCombat snapEmpty (some (.Card ⟨7, "Spell", 0⟩)) = .fault := by
  decide

/-- C6 amended: while an `EnemyCardInCombat` request is pending, a Card
candidate that does not fault is accepted iff some entry of the snapshot's
attacker list matches its (pile, card index, player index) triple; with an
empty attacker list every non-faulting Card candidate rejects. -/
theorem enemyCardInCombat_accepts_iff_attacker (a : AbilityDetails) (g : GameState)
    (cc : FrontendCardTarget) (ha : a.required_target = CardRequiredTarget.EnemyCardInCombat)
    (hnf : searchCallback a g (some (.Card cc)) ≠ .fault) :
    (searchCallback a g (some (.Card cc)) = .resolve (.Card cc) ↔
      ∃ x ∈ g.public_info.attacks, x.attacker.pile = cc.pile ∧
        x.attacker.card_index = cc.card_index ∧
        x.attacker.player_index = cc.player_index) ∧
    (g.public_info.attacks = [] →
      searchCallback a g (some (.Card cc)) = .reject (rejectMsg a.required_target)) := by
  have hchar := searchCallback_card_characterize a g cc hnf
  rw [hchar, ha]
  constructor
  · rw [← attackFind_iff g cc]
    cases hat : attackFind g cc <;> simp [implAccepts, hat]
  · intro hemp
    have hat : attackFind g cc = false := by simp [attackFind, hemp]
    simp [implAccepts, hat]

/-- Witness for the amended C6: the attacking play-zone card resolves. -/
theorem enemyCardInCombat_accepts_iff_attacker_witness :
    abilityCombat.required_target = CardRequiredTarget.EnemyCardInCombat ∧
    searchCallback abilityCombat snapPlayAttack (some (.Card ⟨0, "Play", 0⟩)) ≠ .fault ∧
    ((searchCallback abilityCombat snapPlayAttack (some (.Card ⟨0, "Play", 0⟩)) =
        .resolve (.Card ⟨0, "Play", 0⟩) ↔
      ∃ x ∈ snapPlayAttack.public_info.attacks, x.attacker.pile = "Play" ∧
        x.attacker.card_index = 0 ∧ x.attacker.player_index = 0) ∧
      (snapPlayAttack.public_info.attacks = [] →
        searchCallback abilityCombat snapPlayAttack (some (.Card ⟨0, "Play", 0⟩)) =
          .reject (rejectMsg abilityCombat.required_target))) :=
  ⟨rfl, by decide,
    enemyCardInCombat_accepts_iff_attacker abilityCombat snapPlayAttack ⟨0, "Play", 0⟩
      rfl (by decide)⟩

/-- C8 counterexample: under `EnemyCardOrPlayer`, a Card candidate whose
player index resolves to no player faults instead of being rejected, so not
every Card candidate is rejected under the legacy rule set. -/
theorem enemyCardOrPlayer_staleCard_not_rejected :
    isRejected (searchCallback abilityEnemy snapEmpty (some (.Card ⟨9, "Play", 0⟩))) =
      false ∧
    searchCallback abilityEnemy snapEmpty (some (.Card ⟨9, "Play", 0⟩)) = .fault := by
  decide

/-- C8 amended: while an `EnemyCardOrPlayer` request is pending, EVERY
Player candidate is accepted — no enemy/side or team check on the seat, any
seat index against any snapshot — and every Card candidate that does not
fault is rejected. -/
theorem enemyCardOrPlayer_accepts_any_player (a : AbilityDetails) (g : GameState)
    (i : Nat) (cc : FrontendCardTarget)
    (ha : a.required_target = CardRequiredTarget.EnemyCardOrPlayer)
    (hnf : searchCallback a g (some (.Card cc)) ≠ .fault) :
    searchCallback a g (some (.Player i)) = .resolve (.Player i) ∧
    searchCallback a g (some (.Card cc)) = .reject (rejectMsg a.required_target) := by
  constructor
  · simp [searchCallback, ha]
  · have hchar := searchCallback_card_characterize a g cc hnf
    rw [hchar, ha]
    simp [implAccepts]

/-- Witness for the amended C8: the requester's own seat (index 3) is
accepted — no side check — and a resolvable play-zone card is rejected. -/
theorem enemyCardOrPlayer_accepts_any_player_witness :
    abilityEnemy.required_target = CardRequiredTarget.EnemyCardOrPlayer ∧
    searchCallback abilityEnemy snapNoAttacks (some (.Card ⟨0, "Play", 0⟩)) ≠ .fault ∧
    (searchCallback abilityEnemy snapNoAttacks (some (.Player 3)) = .resolve (.Player 3) ∧
      searchCallback abilityEnemy snapNoAttacks (some (.Card ⟨0, "Play", 0⟩)) =
        .reject (rejectMsg abilityEnemy.required_target)) :=
  ⟨rfl, by decide,
    enemyCardOrPlayer_accepts_any_player abilityEnemy snapNoAttacks 3 ⟨0, "Play", 0⟩
      rfl (by decide)⟩
